import Mathlib

/-!
Shallow embedding of the meet4 collaborative-whiteboard core.

Part 1 models the replicated room-state engine of
src/components/RoomProvider.tsx: the RoomState record, the RoomAction
tagged union (src/unnamed/part_000, types.ts), the pure reducer
roomReducer, and the per-event fold applyEventToState used for remote
replay.

Part 2 models the peer-session logic of the WebRTC provider
(src/unnamed/part_007, third revision, lines 1032-1713): glare handling
in handleSignal, ICE-candidate buffering, reconnection attempt caps,
and the admission cap of AdmissionModal (src/unnamed/part_004).

JavaScript strings are Lean String values (lexicographic order models
the JS relational compare on ids), arrays are List values, numbers used
as indices/counters are Nat, and nullable values are Option values.
-/

namespace Meet4

/-- ParticipantStatus from types.ts. -/
inductive ParticipantStatus where
  | pending
  | admitted
  | denied
  | removed
deriving DecidableEq, Repr

/-- User from types.ts; optional fields become Option values. -/
structure User where
  id : String
  name : String
  avatarUrl : Option String
  status : Option ParticipantStatus
  role : Option String
deriving DecidableEq, Repr

/-- Message from types.ts. -/
structure Message where
  id : String
  userId : String
  userName : String
  avatarUrl : Option String
  content : String
  timestamp : String
deriving DecidableEq, Repr

/-- Tool enum from types.ts. -/
inductive Tool where
  | select
  | hand
  | pen
  | eraser
  | rectangle
  | circle
  | line
  | arrow
  | text
  | stickyNote
deriving DecidableEq, Repr

/-- BoardElement is a tagged union of six shapes in types.ts.  The room
reducer and the event fold only ever consult the id field and otherwise
move whole elements around, so the variant-specific geometry and style
fields are collapsed into one opaque data field. -/
structure BoardElement where
  id : String
  data : String
deriving DecidableEq, Repr

/-- RoomState from types.ts. -/
structure RoomState where
  currentUser : Option User
  participants : List User
  isHost : Bool
  messages : List Message
  elements : List BoardElement
  selectedElementId : Option String
  history : List (List BoardElement)
  historyIndex : Nat
  activeTool : Tool
  color : String
  strokeWidth : Nat
  isBoardVisible : Bool
  isLoading : Bool
  isKicked : Bool
  isExiting : Bool
deriving DecidableEq, Repr

/-- Patch payload of UPDATE_PARTICIPANT (Partial User with a mandatory
id); a field that is absent from the JS object is a none here. -/
structure UserPatch where
  id : String
  name : Option String
  avatarUrl : Option (Option String)
  status : Option (Option ParticipantStatus)
  role : Option (Option String)
deriving DecidableEq, Repr

/-- Spread merge of a partial patch over a user, modelling the object
spread in the UPDATE_PARTICIPANT case of the reducer: present keys of
the payload override the existing entry. -/
def applyUserPatch (p : User) (patch : UserPatch) : User :=
  { id := patch.id
    name := patch.name.getD p.name
    avatarUrl := patch.avatarUrl.getD p.avatarUrl
    status := patch.status.getD p.status
    role := patch.role.getD p.role }

/-- RoomAction from types.ts (all 24 variants). -/
inductive RoomAction where
  | setCurrentUser (payload : User)
  | setHost (payload : Bool)
  | addParticipant (payload : User)
  | removeParticipant (userId : String)
  | setParticipants (payload : List User)
  | updateParticipant (payload : UserPatch)
  | setTool (payload : Tool)
  | setColor (payload : String)
  | setStrokeWidth (payload : Nat)
  | addElement (element : BoardElement) (select : Bool)
  | updateElement (payload : BoardElement)
  | deleteElement (id : String)
  | setSelectedElement (payload : Option String)
  | undo
  | redo
  | clearCanvas
  | setInitialElements (payload : List BoardElement)
  | sendMessage (payload : Message)
  | toggleBoardVisibility
  | themeChanged (payload : Option String)
  | setLoading (payload : Bool)
  | setKicked
  | startLeaving
  | leaveRoom
deriving DecidableEq, Repr

/-- getInitialState from RoomProvider.tsx lines 10-29.  The localStorage
theme read is the isDarkMode parameter. -/
def getInitialState (isDarkMode : Bool) : RoomState :=
  { currentUser := none
    participants := []
    isHost := false
    messages := []
    elements := []
    selectedElementId := none
    history := [[]]
    historyIndex := 0
    activeTool := Tool.select
    color := if isDarkMode then "#FFFFFF" else "#000000"
    strokeWidth := 5
    isBoardVisible := true
    isLoading := true
    isKicked := false
    isExiting := false }

/-- Spread merge in the ADD_PARTICIPANT upsert: the payload is a full
User object built at every dispatch site, so spreading it over the
existing entry replaces every field. -/
def spreadUser (_p payload : User) : User := payload

/-- roomReducer from RoomProvider.tsx lines 31-145, translated case by
case.  The isDarkMode parameter stands for the localStorage read inside
getInitialState, which the LEAVE_ROOM case re-invokes. -/
def roomReducer (isDarkMode : Bool) (state : RoomState) (action : RoomAction) : RoomState :=
  match action with
  | .setLoading payload => { state with isLoading := payload }
  | .setCurrentUser payload => { state with currentUser := some payload }
  | .setHost payload => { state with isHost := payload }
  | .addParticipant payload =>
    if state.participants.any (fun p => p.id == payload.id) then
      { state with participants :=
          state.participants.map (fun p => if p.id == payload.id then spreadUser p payload else p) }
    else
      { state with participants := state.participants ++ [payload] }
  | .removeParticipant userId =>
    { state with participants := state.participants.filter (fun p => !(p.id == userId)) }
  | .setParticipants newParticipants =>
    let isNowHost :=
      match state.currentUser with
      | some cu =>
        match newParticipants.find? (fun p => p.id == cu.id) with
        | some self => self.role == some "host"
        | none => false
      | none => state.isHost
    { state with participants := newParticipants, isHost := isNowHost }
  | .updateParticipant payload =>
    { state with participants :=
        state.participants.map (fun p => if p.id == payload.id then applyUserPatch p payload else p) }
  | .setTool payload => { state with activeTool := payload, selectedElementId := none }
  | .setColor payload => { state with color := payload }
  | .setStrokeWidth payload => { state with strokeWidth := payload }
  | .addElement element select =>
    let newElements := state.elements ++ [element]
    let newHistory := state.history.take (state.historyIndex + 1) ++ [newElements]
    { state with
        elements := newElements
        history := newHistory
        historyIndex := newHistory.length - 1
        selectedElementId := if select then some element.id else state.selectedElementId
        activeTool := if select then Tool.select else state.activeTool }
  | .updateElement payload =>
    let newElements := state.elements.map (fun el => if el.id == payload.id then payload else el)
    let newHistory := state.history.take (state.historyIndex + 1) ++ [newElements]
    { state with
        elements := newElements
        history := newHistory
        historyIndex := newHistory.length - 1 }
  | .deleteElement id =>
    let newElements := state.elements.filter (fun el => !(el.id == id))
    let newHistory := state.history.take (state.historyIndex + 1) ++ [newElements]
    { state with
        elements := newElements
        history := newHistory
        historyIndex := newHistory.length - 1
        selectedElementId :=
          if state.selectedElementId == some id then none else state.selectedElementId }
  | .setSelectedElement payload => { state with selectedElementId := payload }
  | .undo =>
    if state.historyIndex > 0 then
      let newIndex := state.historyIndex - 1
      { state with
          historyIndex := newIndex
          elements := state.history.getD newIndex []
          selectedElementId := none }
    else state
  | .redo =>
    if state.historyIndex < state.history.length - 1 then
      let newIndex := state.historyIndex + 1
      { state with
          historyIndex := newIndex
          elements := state.history.getD newIndex []
          selectedElementId := none }
    else state
  | .clearCanvas =>
    let newHistory := state.history.take (state.historyIndex + 1) ++ [[]]
    { state with
        elements := []
        history := newHistory
        historyIndex := newHistory.length - 1
        selectedElementId := none }
  | .setInitialElements payload =>
    { state with elements := payload, history := [payload], historyIndex := 0 }
  | .sendMessage payload =>
    if state.messages.any (fun m => m.id == payload.id) then state
    else { state with messages := state.messages ++ [payload] }
  | .toggleBoardVisibility => { state with isBoardVisible := !state.isBoardVisible }
  | .themeChanged payload =>
    let isDarkNow := payload == some "dark"
    let oldDefaultColor := if isDarkNow then "#000000" else "#FFFFFF"
    let newDefaultColor := if isDarkNow then "#FFFFFF" else "#000000"
    if state.color == oldDefaultColor then { state with color := newDefaultColor } else state
  | .setKicked => { state with isKicked := true }
  | .startLeaving => { state with isExiting := true, isLoading := false }
  | .leaveRoom => getInitialState isDarkMode

/-- Persisted whiteboard-event records (meetboard_whiteboard_events).
The event_type string together with its data payload, as written by
dispatchAndBroadcast (RoomProvider.tsx lines 484-494): element events
carry the originating action payload, UNDO/REDO/CLEAR_CANVAS carry an
empty object. -/
inductive WhiteboardEvent where
  | addElement (element : BoardElement) (select : Bool)
  | updateElement (payload : BoardElement)
  | deleteElement (id : String)
  | clearCanvas
  | undo
  | redo
deriving DecidableEq, Repr

/-- applyEventToState from RoomProvider.tsx lines 162-170.  UNDO and
REDO records fall into the default branch and leave the array
unchanged. -/
def applyEventToState (elements : List BoardElement) (event : WhiteboardEvent) : List BoardElement :=
  match event with
  | .addElement element _ => elements ++ [element]
  | .updateElement payload =>
    elements.map (fun el => if el.id == payload.id then payload else el)
  | .deleteElement id => elements.filter (fun el => !(el.id == id))
  | .clearCanvas => []
  | .undo => elements
  | .redo => elements

/-- Live remote delivery (RoomProvider.tsx lines 320-323): an inserted
event row from another user is dispatched straight into the reducer as
the action of the same type carrying the persisted data payload. -/
def eventToAction : WhiteboardEvent → RoomAction
  | .addElement element select => .addElement element select
  | .updateElement payload => .updateElement payload
  | .deleteElement id => .deleteElement id
  | .clearCanvas => .clearCanvas
  | .undo => .undo
  | .redo => .redo

/-- An event record is an element mutation (not an UNDO/REDO marker). -/
def WhiteboardEvent.isElemEvent : WhiteboardEvent → Bool
  | .undo => false
  | .redo => false
  | _ => true

/-!
Part 2 - WebRTC peer-session layer (src/unnamed/part_007, the revision
at lines 1032-1713).

The provider keeps, per remote peer id: at most one RTCPeerConnection
(the peerConnections map), a queue of ICE candidates that arrived too
early (the pendingIceCandidates map, whose entry for a peer may be
absent), and a reconnection attempt counter (the connectionAttempts
map, absent entry read as 0).  PeerState gathers the three per-peer
slots.  The browser RTCPeerConnection is abstracted to the fields the
provider observes and drives: its signaling state, the two session
descriptions, and the (ordered) list of candidates passed to
addIceCandidate.  SDP blobs and candidates are opaque strings;
createOffer and createAnswer are modelled as deterministic blobs tagged
with the creating peer id.
-/

/-- Signaling states of an RTCPeerConnection that the provider code
distinguishes (it only ever compares against "stable"). -/
inductive SignalingState where
  | haveLocalOffer
  | haveRemoteOffer
  | stable
deriving DecidableEq, Repr

/-- Abstraction of one RTCPeerConnection as the provider observes it:
appliedCandidates records every successful addIceCandidate call in
order. -/
structure RTCConn where
  signalingState : SignalingState
  localDescription : Option String
  remoteDescription : Option String
  appliedCandidates : List String
deriving DecidableEq, Repr

/-- Per-remote-peer slice of the provider refs: the peerConnections
entry, the pendingIceCandidates entry (none when the map has no entry
for this peer), and the connectionAttempts counter (0 when absent). -/
structure PeerState where
  pc : Option RTCConn
  pendingIce : Option (List String)
  attempts : Nat
deriving DecidableEq, Repr

/-- Deterministic stand-in for the SDP blob produced by createOffer. -/
def offerSdp (selfId : String) : String := "offer-sdp-" ++ selfId

/-- Deterministic stand-in for the SDP blob produced by createAnswer. -/
def answerSdp (selfId : String) : String := "answer-sdp-" ++ selfId

/-- Signal envelopes exchanged over the webrtc broadcast channel
(sendSignal payload shapes). -/
inductive Signal where
  | offer (sdp : String)
  | answer (sdp : String)
  | iceCandidate (candidate : String)
  | connectionFailed
deriving DecidableEq, Repr

/-- createPeerConnection (lines 1501-1628) as seen from the signaling
layer: a fresh connection with no descriptions and no applied
candidates. -/
def freshConn : RTCConn :=
  { signalingState := .stable
    localDescription := none
    remoteDescription := none
    appliedCandidates := [] }

/-- flushPendingIceCandidates (lines 1096-1113): when an entry exists in
the pending map and the connection has a remote description, every
queued candidate is passed to addIceCandidate in queue order and the
entry is deleted; otherwise nothing changes. -/
def flushPendingIceCandidates (pending : Option (List String)) (pc : RTCConn) :
    Option (List String) × RTCConn :=
  match pending, pc.remoteDescription with
  | some queued, some _ =>
    (none, { pc with appliedCandidates := pc.appliedCandidates ++ queued })
  | _, _ => (pending, pc)

/-- Net result of createPeerConnection followed by createOffer and
setLocalDescription: a fresh connection holding a local offer. -/
def initiatedConn (selfId : String) : RTCConn :=
  { freshConn with
      signalingState := .haveLocalOffer
      localDescription := some (offerSdp selfId) }

/-- attemptReconnection (lines 1413-1436): below the cap of 3 it bumps
the counter, closes and discards any existing connection, and - only
when the local id orders before the peer id - creates a fresh
connection, sets a local offer and sends it; at or above the cap it
returns immediately. -/
def attemptReconnection (selfId peerId : String) (st : PeerState) : PeerState × List Signal :=
  if st.attempts ≥ 3 then (st, [])
  else
    let closed : PeerState := { st with attempts := st.attempts + 1, pc := none }
    if selfId < peerId then
      ({ closed with pc := some (initiatedConn selfId) },
       [Signal.offer (offerSdp selfId)])
    else (closed, [])

/-- handleSignal (lines 1155-1225) for one remote peer: the four
signal_type branches, with the WebRTC negotiation calls collapsed to
their net state effect (setRemoteDescription of an offer then
createAnswer plus setLocalDescription lands the connection in stable;
setRemoteDescription of an answer lands it in stable). -/
def handleSignal (selfId senderId : String) (st : PeerState) (sig : Signal) :
    PeerState × List Signal :=
  match sig with
  | .offer sdp =>
    match st.pc with
    | none =>
      let pc := { freshConn with
          remoteDescription := some sdp
          signalingState := SignalingState.haveRemoteOffer }
      let flushed := flushPendingIceCandidates st.pendingIce pc
      let answered := { flushed.2 with
          localDescription := some (answerSdp selfId)
          signalingState := SignalingState.stable }
      ({ st with pc := some answered, pendingIce := flushed.1 },
       [Signal.answer (answerSdp selfId)])
    | some pc =>
      let amInitiator := selfId < senderId
      if amInitiator ∧ pc.signalingState ≠ .stable then (st, [])
      else
        let pc := { pc with
            remoteDescription := some sdp
            signalingState := SignalingState.haveRemoteOffer }
        let flushed := flushPendingIceCandidates st.pendingIce pc
        let answered := { flushed.2 with
            localDescription := some (answerSdp selfId)
            signalingState := SignalingState.stable }
        ({ st with pc := some answered, pendingIce := flushed.1 },
         [Signal.answer (answerSdp selfId)])
  | .answer sdp =>
    match st.pc with
    | none => (st, [])
    | some pc =>
      let pc := { pc with
          remoteDescription := some sdp
          signalingState := SignalingState.stable }
      let flushed := flushPendingIceCandidates st.pendingIce pc
      ({ st with pc := some flushed.2, pendingIce := flushed.1 }, [])
  | .iceCandidate candidate =>
    match st.pc with
    | none =>
      ({ st with pendingIce := some (st.pendingIce.getD [] ++ [candidate]) }, [])
    | some pc =>
      match pc.remoteDescription with
      | some _ =>
        ({ st with pc := some { pc with
              appliedCandidates := pc.appliedCandidates ++ [candidate] } }, [])
      | none =>
        ({ st with pendingIce := some (st.pendingIce.getD [] ++ [candidate]) }, [])
  | .connectionFailed =>
    match st.pc with
    | none => (st, [])
    | some _ => attemptReconnection selfId senderId st

/-- Admitted-participants effect (lines 1630-1657): for an admitted
remote peer with no existing connection, only the side whose id orders
before the peer id creates a connection, sets a local offer and sends
it; the other side takes no action. -/
def admittedEffect (selfId peerId : String) (st : PeerState) : PeerState × List Signal :=
  if st.pc.isNone then
    if selfId < peerId then
      ({ st with pc := some (initiatedConn selfId) },
       [Signal.offer (offerSdp selfId)])
    else (st, [])
  else (st, [])

/-- ICE connection states from the browser API. -/
inductive IceConnectionState where
  | new
  | checking
  | connected
  | completed
  | failed
  | disconnected
  | closed
deriving DecidableEq, Repr

/-- Effect of the oniceconnectionstatechange handler (lines 1559-1579)
on the connectionAttempts counter: connected and completed reset it to
0, every other state leaves it alone (the failed/disconnected branch
only schedules a connection-failed signal). -/
def iceStateChangeAttempts (attempts : Nat) (s : IceConnectionState) : Nat :=
  match s with
  | .connected => 0
  | .completed => 0
  | _ => attempts

/-- Effect of the onconnectionstatechange handler (lines 1581-1596) on
the connectionAttempts counter: the connected state resets it to 0. -/
def connStateChangeAttempts (attempts : Nat) (connected : Bool) : Nat :=
  if connected then 0 else attempts

/-!
Admission cap (src/unnamed/part_004 lines 211-276, AdmissionModal, and
src/unnamed/part_002 line 123 which supplies currentParticipantCount as
the number of admitted participants).
-/

/-- MAX_PARTICIPANTS from AdmissionModal. -/
def MAX_PARTICIPANTS : Nat := 5

/-- isRoomFull from AdmissionModal line 227. -/
def isRoomFull (currentParticipantCount : Nat) : Bool :=
  currentParticipantCount ≥ MAX_PARTICIPANTS

/-- admittedParticipantCount from part_002 line 123: the count handed to
AdmissionModal is the number of participants whose status is
admitted. -/
def admittedParticipantCount (participants : List User) : Nat :=
  (participants.filter (fun p => p.status == some ParticipantStatus.admitted)).length

/-- handleAdmission from AdmissionModal lines 229-238, as the status
update it issues to the participant row: none when it returns early
(admission requested while the room is full), otherwise the new status. -/
def handleAdmission (approve : Bool) (currentParticipantCount : Nat) :
    Option ParticipantStatus :=
  if approve ∧ isRoomFull currentParticipantCount then none
  else some (if approve then ParticipantStatus.admitted else ParticipantStatus.denied)

/-- Result of an optional status update on a participant row: none
leaves the stored status in place. -/
def applyStatusUpdate (upd : Option ParticipantStatus) (stored : ParticipantStatus) :
    ParticipantStatus :=
  upd.getD stored

/-!
Part 3 - theorems about the embedded code.
-/

/-- The four element-mutating operations, each of which exists both as a
local reducer action and as a persisted event record (the record data is
the action payload, per dispatchAndBroadcast). -/
inductive ElemOp where
  | add (element : BoardElement) (select : Bool)
  | update (payload : BoardElement)
  | delete (id : String)
  | clear
deriving DecidableEq, Repr

/-- The local reducer action of an element operation. -/
def ElemOp.toAction : ElemOp → RoomAction
  | .add element select => .addElement element select
  | .update payload => .updateElement payload
  | .delete id => .deleteElement id
  | .clear => .clearCanvas

/-- The persisted event record of an element operation. -/
def ElemOp.toEvent : ElemOp → WhiteboardEvent
  | .add element select => .addElement element select
  | .update payload => .updateElement payload
  | .delete id => .deleteElement id
  | .clear => .clearCanvas

/-- One element operation changes the elements field of the reducer
state exactly as applyEventToState changes a bare elements array. -/
theorem reducer_elements_step (d : Bool) (s : RoomState) (op : ElemOp) :
    (roomReducer d s op.toAction).elements = applyEventToState s.elements op.toEvent := by
  cases op <;> rfl

/-- C1: for every sequence of ADD_ELEMENT, UPDATE_ELEMENT,
DELETE_ELEMENT and CLEAR_CANVAS operations, pushing the sequence through
roomReducer and folding the corresponding event records with
applyEventToState from the same starting elements array produce
identical elements arrays. -/
theorem C1_local_reducer_matches_event_fold (d : Bool) (ops : List ElemOp) (s : RoomState) :
    (ops.foldl (fun st op => roomReducer d st op.toAction) s).elements
      = ops.foldl (fun es op => applyEventToState es op.toEvent) s.elements := by
  induction ops generalizing s with
  | nil => rfl
  | cons op ops ih =>
    rw [List.foldl_cons, List.foldl_cons, ih, reducer_elements_step]

/-- C3: UNDO with positive index steps back one snapshot, UNDO at index
0 is a no-op, REDO below the last index steps forward one snapshot, REDO
at the last index is a no-op, and UNDO after REDO after UNDO equals a
single UNDO (restoring the immediately preceding snapshot). -/
theorem C3_undo_redo_semantics (d : Bool) (s : RoomState) :
    (0 < s.historyIndex →
      (roomReducer d s .undo).historyIndex = s.historyIndex - 1
      ∧ (roomReducer d s .undo).elements = s.history.getD (s.historyIndex - 1) [])
    ∧ (s.historyIndex = 0 → roomReducer d s .undo = s)
    ∧ (s.historyIndex < s.history.length - 1 →
      (roomReducer d s .redo).historyIndex = s.historyIndex + 1
      ∧ (roomReducer d s .redo).elements = s.history.getD (s.historyIndex + 1) [])
    ∧ (s.historyIndex = s.history.length - 1 → roomReducer d s .redo = s)
    ∧ (0 < s.historyIndex → s.historyIndex < s.history.length →
      roomReducer d (roomReducer d (roomReducer d s .undo) .redo) .undo
        = roomReducer d s .undo) := by
  refine ⟨fun h => ?_, fun h => ?_, fun h => ?_, fun h => ?_, fun h1 h2 => ?_⟩
  · simp [roomReducer, h]
  · simp [roomReducer, h]
  · simp [roomReducer, h]
  · simp [roomReducer, h]
  · have hredo : s.historyIndex - 1 < s.history.length - 1 := by omega
    have hsucc : s.historyIndex - 1 + 1 = s.historyIndex := by omega
    simp [roomReducer, h1, hredo, hsucc]

/-- C4: each of the four element-mutating actions replaces the history
with the old history truncated to indices 0..historyIndex followed by a
snapshot of the new elements array, and sets historyIndex to the index
of that new last snapshot. -/
theorem C4_history_truncation (d : Bool) (s : RoomState) (op : ElemOp) :
    (roomReducer d s op.toAction).history
        = s.history.take (s.historyIndex + 1) ++ [(roomReducer d s op.toAction).elements]
    ∧ (roomReducer d s op.toAction).historyIndex
        = (roomReducer d s op.toAction).history.length - 1 := by
  cases op <;> exact ⟨rfl, rfl⟩

/-- Concrete state used to witness the history claims: one stroke was
added, so history holds the empty snapshot and the one-element
snapshot. -/
def sampleState : RoomState :=
  { getInitialState true with
      elements := [⟨"e1", "stroke"⟩]
      history := [[], [⟨"e1", "stroke"⟩]]
      historyIndex := 1 }

/-- Witness for C3 at sampleState: UNDO steps back to index 0 and the
undo-redo-undo chain equals a single undo. -/
theorem C3_undo_redo_semantics_witness :
    ((roomReducer true sampleState .undo).historyIndex = 1 - 1
      ∧ (roomReducer true sampleState .undo).elements
          = sampleState.history.getD (1 - 1) [])
    ∧ roomReducer true (roomReducer true (roomReducer true sampleState .undo) .redo) .undo
        = roomReducer true sampleState .undo :=
  ⟨(C3_undo_redo_semantics true sampleState).1 (by decide),
   (C3_undo_redo_semantics true sampleState).2.2.2.2 (by decide) (by decide)⟩

/-- C5: the history invariant (historyIndex is a valid index into
history; the lower bound 0 is implicit in the Nat type) holds in the
initial state and is preserved by every reducer action. -/
theorem C5_history_invariant (d b : Bool) (s : RoomState) (a : RoomAction)
    (h : s.historyIndex < s.history.length) :
    (getInitialState b).historyIndex < (getInitialState b).history.length
    ∧ (roomReducer d s a).historyIndex < (roomReducer d s a).history.length := by
  refine ⟨by simp [getInitialState], ?_⟩
  cases a <;>
    first
    | exact h
    | exact Nat.zero_lt_one
    | (simp [roomReducer]; omega)
    | (simp only [roomReducer];
       split <;> (try split) <;> first | exact h | (simp; omega))
    | simp [roomReducer, getInitialState]

/-- Witness for C5 at sampleState and a DELETE_ELEMENT action. -/
theorem C5_history_invariant_witness :
    (getInitialState false).historyIndex < (getInitialState false).history.length
    ∧ (roomReducer true sampleState (.deleteElement "e1")).historyIndex
        < (roomReducer true sampleState (.deleteElement "e1")).history.length :=
  C5_history_invariant true false sampleState (.deleteElement "e1") (by decide)

/-- Updating by an id that matches no element leaves the array
unchanged (the UPDATE_ELEMENT map is the identity). -/
theorem update_map_noop (l : List BoardElement) (e : BoardElement)
    (h : ∀ el ∈ l, el.id ≠ e.id) :
    l.map (fun el => if el.id == e.id then e else el) = l := by
  induction l with
  | nil => rfl
  | cons x xs ih =>
    have hx : ¬ (x.id == e.id) = true := by
      simpa using h x (List.mem_cons_self x xs)
    simp only [List.map_cons, if_neg hx]
    rw [ih (fun el hm => h el (List.mem_cons_of_mem _ hm))]

/-- Deleting an id that matches no element leaves the array unchanged
(the DELETE_ELEMENT filter keeps everything). -/
theorem delete_filter_noop (l : List BoardElement) (id : String)
    (h : ∀ el ∈ l, el.id ≠ id) :
    l.filter (fun el => !(el.id == id)) = l := by
  induction l with
  | nil => rfl
  | cons x xs ih =>
    have hx : (!(x.id == id)) = true := by
      simpa using h x (List.mem_cons_self x xs)
    simp only [List.filter_cons, hx, if_pos]
    rw [ih (fun el hm => h el (List.mem_cons_of_mem _ hm))]

/-- C10: an UPDATE_ELEMENT or DELETE_ELEMENT whose payload id matches no
element still appends a snapshot equal in content to the previous
elements array and advances historyIndex by one, while the elements
array itself is unchanged. -/
theorem C10_noop_edit_consumes_history (d : Bool) (s : RoomState) (e : BoardElement)
    (pid : String)
    (hinv : s.historyIndex < s.history.length)
    (hu : ∀ el ∈ s.elements, el.id ≠ e.id)
    (hd : ∀ el ∈ s.elements, el.id ≠ pid) :
    ((roomReducer d s (.updateElement e)).elements = s.elements
      ∧ (roomReducer d s (.updateElement e)).history
          = s.history.take (s.historyIndex + 1) ++ [s.elements]
      ∧ (roomReducer d s (.updateElement e)).historyIndex = s.historyIndex + 1)
    ∧ ((roomReducer d s (.deleteElement pid)).elements = s.elements
      ∧ (roomReducer d s (.deleteElement pid)).history
          = s.history.take (s.historyIndex + 1) ++ [s.elements]
      ∧ (roomReducer d s (.deleteElement pid)).historyIndex = s.historyIndex + 1) := by
  have hlen : (s.history.take (s.historyIndex + 1)).length = s.historyIndex + 1 := by
    simp [List.length_take]; omega
  have hu1 : (roomReducer d s (.updateElement e)).elements = s.elements :=
    update_map_noop s.elements e hu
  have hd1 : (roomReducer d s (.deleteElement pid)).elements = s.elements :=
    delete_filter_noop s.elements pid hd
  have hu2 : (roomReducer d s (.updateElement e)).history
      = s.history.take (s.historyIndex + 1)
          ++ [(roomReducer d s (.updateElement e)).elements] := rfl
  have hd2 : (roomReducer d s (.deleteElement pid)).history
      = s.history.take (s.historyIndex + 1)
          ++ [(roomReducer d s (.deleteElement pid)).elements] := rfl
  have hu3 : (roomReducer d s (.updateElement e)).historyIndex
      = (s.history.take (s.historyIndex + 1)
          ++ [(roomReducer d s (.updateElement e)).elements]).length - 1 := rfl
  have hd3 : (roomReducer d s (.deleteElement pid)).historyIndex
      = (s.history.take (s.historyIndex + 1)
          ++ [(roomReducer d s (.deleteElement pid)).elements]).length - 1 := rfl
  refine ⟨⟨hu1, ?_, ?_⟩, ⟨hd1, ?_, ?_⟩⟩
  · rw [hu2, hu1]
  · rw [hu3]; simp [hlen]
  · rw [hd2, hd1]
  · rw [hd3]; simp [hlen]

/-- Witness for C10: updating a missing id "zz" on sampleState keeps the
elements array but burns a history slot. -/
theorem C10_noop_edit_consumes_history_witness :
    (roomReducer true sampleState (.updateElement ⟨"zz", "x"⟩)).elements
        = sampleState.elements
    ∧ (roomReducer true sampleState (.deleteElement "zz")).historyIndex
        = sampleState.historyIndex + 1 :=
  ⟨(C10_noop_edit_consumes_history true sampleState ⟨"zz", "x"⟩ "zz" (by decide)
      (by decide) (by decide)).1.1,
   (C10_noop_edit_consumes_history true sampleState ⟨"zz", "x"⟩ "zz" (by decide)
      (by decide) (by decide)).2.2.2⟩

/-- One element event delivered remotely changes the elements field of
the reducer state exactly as applyEventToState changes a bare array. -/
theorem remote_event_elements_step (d : Bool) (s : RoomState) (e : WhiteboardEvent)
    (h : e.isElemEvent = true) :
    (roomReducer d s (eventToAction e)).elements = applyEventToState s.elements e := by
  cases e <;> first | rfl | simp [WhiteboardEvent.isElemEvent] at h

/-- Folding element events through the reducer dispatch path tracks the
bare applyEventToState fold. -/
theorem remote_fold_elements (d : Bool) (events : List WhiteboardEvent) (s : RoomState)
    (h : ∀ e ∈ events, e.isElemEvent = true) :
    (events.foldl (fun st e => roomReducer d st (eventToAction e)) s).elements
      = events.foldl applyEventToState s.elements := by
  induction events generalizing s with
  | nil => rfl
  | cons e es ih =>
    rw [List.foldl_cons, List.foldl_cons,
      ih (roomReducer d s (eventToAction e)) (fun x hx => h x (List.mem_cons_of_mem _ hx)),
      remote_event_elements_step d s e (h e (List.mem_cons_self e es))]

/-- Element used in the C2 counterexample log. -/
def c2Element : BoardElement := ⟨"e1", "stroke"⟩

/-- Event log of the C2 counterexample: one ADD_ELEMENT followed by one
UNDO, both persisted (dispatchAndBroadcast persists UNDO records). -/
def c2Log : List WhiteboardEvent :=
  [WhiteboardEvent.addElement c2Element false, WhiteboardEvent.undo]

/-- C2 counterexample: on the log [ADD e1, UNDO], the client that was
present applies the UNDO through the reducer and ends with no elements,
while the late joiner folds the log with applyEventToState (which
ignores UNDO records) and ends with element e1 - the two arrays differ
even as sets, refuting the claim for logs containing UNDO/REDO. -/
theorem C2_replay_counterexample :
    (c2Log.foldl (fun st e => roomReducer true st (eventToAction e))
        (getInitialState true)).elements = []
    ∧ c2Log.foldl applyEventToState [] = [c2Element]
    ∧ (roomReducer true (getInitialState true)
        (.setInitialElements (c2Log.foldl applyEventToState []))).elements
      = [c2Element] :=
  ⟨rfl, rfl, rfl⟩

/-- C2 amended: for every persisted log free of UNDO and REDO records, a
late joiner that replays the log through the SET_INITIAL_ELEMENTS fold
ends with an elements array identical to that of a client that applied
the same events one-by-one through the reducer dispatch path from the
initial state. -/
theorem C2_amended_replay_equivalence (dLive dJoin : Bool) (events : List WhiteboardEvent)
    (h : ∀ e ∈ events, e.isElemEvent = true) :
    (roomReducer dJoin (getInitialState dJoin)
        (.setInitialElements (events.foldl applyEventToState []))).elements
      = (events.foldl (fun st e => roomReducer dLive st (eventToAction e))
          (getInitialState dLive)).elements := by
  rw [remote_fold_elements dLive events (getInitialState dLive) h]
  rfl

/-- Witness for the amended C2 on a small UNDO-free log. -/
theorem C2_amended_replay_equivalence_witness :
    (∀ e ∈ [WhiteboardEvent.addElement c2Element true,
            WhiteboardEvent.updateElement ⟨"e1", "moved"⟩,
            WhiteboardEvent.clearCanvas,
            WhiteboardEvent.addElement ⟨"e2", "s"⟩ false,
            WhiteboardEvent.deleteElement "e2"], e.isElemEvent = true)
    ∧ (roomReducer false (getInitialState false)
        (.setInitialElements
          ([WhiteboardEvent.addElement c2Element true,
            WhiteboardEvent.updateElement ⟨"e1", "moved"⟩,
            WhiteboardEvent.clearCanvas,
            WhiteboardEvent.addElement ⟨"e2", "s"⟩ false,
            WhiteboardEvent.deleteElement "e2"].foldl applyEventToState []))).elements
      = ([WhiteboardEvent.addElement c2Element true,
          WhiteboardEvent.updateElement ⟨"e1", "moved"⟩,
          WhiteboardEvent.clearCanvas,
          WhiteboardEvent.addElement ⟨"e2", "s"⟩ false,
          WhiteboardEvent.deleteElement "e2"].foldl
            (fun st e => roomReducer true st (eventToAction e))
            (getInitialState true)).elements :=
  ⟨by decide,
   C2_amended_replay_equivalence true false
     [WhiteboardEvent.addElement c2Element true,
      WhiteboardEvent.updateElement ⟨"e1", "moved"⟩,
      WhiteboardEvent.clearCanvas,
      WhiteboardEvent.addElement ⟨"e2", "s"⟩ false,
      WhiteboardEvent.deleteElement "e2"] (by decide)⟩

/-- C6: with a lexicographically smaller than b, only the a side
initiates when both observe each other as admitted; the a side ignores
an incoming offer while it holds a non-stable connection (glare); the b
side accepts the offer of a and answers; and after b answers and a
applies the answer, each side holds exactly one connection whose
negotiated offer is the one created by a (the offer sdp of a is the
remote description at b and the local description at a). -/
theorem C6_glare_resolution (a b : String) (hab : a < b) :
    admittedEffect a b ⟨none, none, 0⟩
        = (⟨some (initiatedConn a), none, 0⟩, [Signal.offer (offerSdp a)])
    ∧ admittedEffect b a ⟨none, none, 0⟩ = (⟨none, none, 0⟩, [])
    ∧ (∀ pc q n sdp, pc.signalingState ≠ .stable →
        handleSignal a b ⟨some pc, q, n⟩ (.offer sdp) = (⟨some pc, q, n⟩, []))
    ∧ handleSignal b a ⟨none, none, 0⟩ (.offer (offerSdp a))
        = (⟨some ⟨.stable, some (answerSdp b), some (offerSdp a), []⟩, none, 0⟩,
           [Signal.answer (answerSdp b)])
    ∧ (∀ pc, handleSignal b a ⟨some pc, none, 0⟩ (.offer (offerSdp a))
        = (⟨some { pc with
              signalingState := .stable
              localDescription := some (answerSdp b)
              remoteDescription := some (offerSdp a) }, none, 0⟩,
           [Signal.answer (answerSdp b)]))
    ∧ handleSignal a b ⟨some (initiatedConn a), none, 0⟩ (.answer (answerSdp b))
        = (⟨some ⟨.stable, some (offerSdp a), some (answerSdp b), []⟩, none, 0⟩, []) := by
  have hba : ¬ b < a := lt_asymm hab
  refine ⟨?_, ?_, ?_, ?_, ?_, ?_⟩
  · simp [admittedEffect, hab]
  · simp [admittedEffect, hba]
  · intro pc q n sdp hne
    simp [handleSignal, hab, hne]
  · rfl
  · intro pc
    simp [handleSignal, hba, flushPendingIceCandidates]
  · rfl

/-- Witness for C6 with the concrete ids a1 and b2 of the spec
scenario: b2 does not initiate, and a1 (holding its own offer) ignores
an incoming offer from b2. -/
theorem C6_glare_resolution_witness :
    admittedEffect "b2" "a1" ⟨none, none, 0⟩ = (⟨none, none, 0⟩, [])
    ∧ handleSignal "a1" "b2" ⟨some (initiatedConn "a1"), none, 0⟩ (.offer "late-sdp")
        = (⟨some (initiatedConn "a1"), none, 0⟩, []) :=
  ⟨(C6_glare_resolution "a1" "b2" (by rw [String.lt_iff_toList_lt]; decide)).2.1,
   (C6_glare_resolution "a1" "b2"
      (by rw [String.lt_iff_toList_lt]; decide)).2.2.1
      (initiatedConn "a1") none 0 "late-sdp" (by decide)⟩

/-- Folding early ICE candidates (no connection yet) from a state whose
pending entry already holds q queues them all in arrival order. -/
theorem ice_fold_aux (self sender : String) (k : Nat) (q cands : List String) :
    cands.foldl (fun s x => (handleSignal self sender s (.iceCandidate x)).1)
        ⟨none, some q, k⟩
      = ⟨none, some (q ++ cands), k⟩ := by
  induction cands generalizing q with
  | nil => simp
  | cons c cs ih =>
    rw [List.foldl_cons]
    have hstep : (handleSignal self sender ⟨none, some q, k⟩ (.iceCandidate c)).1
        = ⟨none, some (q ++ [c]), k⟩ := rfl
    rw [hstep, ih]
    simp

/-- C7: an ICE candidate arriving before a connection exists, or before
its remote description is set, is appended FIFO to the pending queue; a
candidate arriving after the remote description is set is applied
immediately; applying a remote description (the answer branch) appends
every queued candidate to the connection in arrival order and deletes
the queue; a burst of early candidates is queued in arrival order; and
re-flushing after the queue was deleted adds nothing, so each buffered
candidate is applied at most once. -/
theorem C7_ice_candidate_buffering (self sender c sdp sdp2 : String)
    (st : PeerState) (k : Nat) (cands : List String) :
    (st.pc = none →
      handleSignal self sender st (.iceCandidate c)
        = ({ st with pendingIce := some (st.pendingIce.getD [] ++ [c]) }, []))
    ∧ (∀ pc, st.pc = some pc → pc.remoteDescription = none →
      handleSignal self sender st (.iceCandidate c)
        = ({ st with pendingIce := some (st.pendingIce.getD [] ++ [c]) }, []))
    ∧ (∀ pc dsc, st.pc = some pc → pc.remoteDescription = some dsc →
      handleSignal self sender st (.iceCandidate c)
        = ({ st with pc := some { pc with
              appliedCandidates := pc.appliedCandidates ++ [c] } }, []))
    ∧ (∀ pc, st.pc = some pc →
      handleSignal self sender st (.answer sdp)
        = ({ st with
              pc := some { pc with
                signalingState := .stable
                remoteDescription := some sdp
                appliedCandidates := pc.appliedCandidates ++ st.pendingIce.getD [] }
              pendingIce := none }, []))
    ∧ ((cands.foldl (fun s x => (handleSignal self sender s (.iceCandidate x)).1)
          ⟨none, none, k⟩).pendingIce.getD [] = cands
      ∧ (cands.foldl (fun s x => (handleSignal self sender s (.iceCandidate x)).1)
          ⟨none, none, k⟩).pc = none)
    ∧ (∀ pc, st.pc = some pc →
      (handleSignal self sender (handleSignal self sender st (.answer sdp)).1
          (.answer sdp2)).1.pc.map RTCConn.appliedCandidates
        = ((handleSignal self sender st (.answer sdp)).1.pc.map
            RTCConn.appliedCandidates)) := by
  refine ⟨?_, ?_, ?_, ?_, ?_, ?_⟩
  · intro hpc
    simp [handleSignal, hpc]
  · intro pc hpc hrd
    simp [handleSignal, hpc, hrd]
  · intro pc dsc hpc hrd
    simp [handleSignal, hpc, hrd]
  · intro pc hpc
    cases hq : st.pendingIce <;>
      simp [handleSignal, hpc, hq, flushPendingIceCandidates]
  · cases cands with
    | nil => exact ⟨rfl, rfl⟩
    | cons c0 cs =>
      rw [List.foldl_cons]
      have hstep : (handleSignal self sender ⟨none, none, k⟩ (.iceCandidate c0)).1
          = ⟨none, some [c0], k⟩ := rfl
      rw [hstep, ice_fold_aux]
      exact ⟨rfl, rfl⟩
  · intro pc hpc
    cases hq : st.pendingIce <;>
      simp [handleSignal, hpc, hq, flushPendingIceCandidates]

/-- Witness for C7: one early candidate is queued while the connection
has no remote description, and applying an answer flushes it. -/
theorem C7_ice_candidate_buffering_witness :
    handleSignal "a" "b" ⟨some (initiatedConn "a"), none, 0⟩ (.iceCandidate "cand1")
        = (⟨some (initiatedConn "a"), some ["cand1"], 0⟩, [])
    ∧ handleSignal "a" "b" ⟨some (initiatedConn "a"), some ["cand1"], 0⟩
        (.answer "ans")
        = (⟨some { initiatedConn "a" with
              signalingState := .stable
              remoteDescription := some "ans"
              appliedCandidates := ["cand1"] }, none, 0⟩, []) := by
  refine ⟨?_, ?_⟩
  · have h := (C7_ice_candidate_buffering "a" "b" "cand1" "x" "y"
      ⟨some (initiatedConn "a"), none, 0⟩ 0 []).2.1 (initiatedConn "a") rfl rfl
    simpa using h
  · have h := (C7_ice_candidate_buffering "a" "b" "c" "ans" "y"
      ⟨some (initiatedConn "a"), some ["cand1"], 0⟩ 0 []).2.2.2.1
      (initiatedConn "a") rfl
    simpa [initiatedConn, freshConn] using h

/-- C9: below the cap of 3 the smaller-id side closes the old
connection, creates a new one and re-offers while bumping the counter;
the larger-id side closes and bumps without re-offering; at or above the
cap attemptReconnection changes nothing and sends nothing; and a
connected or completed connection state resets the counter to zero. -/
theorem C9_reconnection_attempt_cap (self peer : String) (st : PeerState)
    (hlt : st.attempts < 3) (hsm : self < peer) :
    attemptReconnection self peer st
        = ({ st with attempts := st.attempts + 1, pc := some (initiatedConn self) },
           [Signal.offer (offerSdp self)])
    ∧ attemptReconnection peer self st
        = ({ st with attempts := st.attempts + 1, pc := none }, [])
    ∧ (∀ st2 : PeerState, 3 ≤ st2.attempts →
        attemptReconnection self peer st2 = (st2, []))
    ∧ (∀ n, iceStateChangeAttempts n .connected = 0
        ∧ iceStateChangeAttempts n .completed = 0
        ∧ connStateChangeAttempts n true = 0) := by
  have hba : ¬ peer < self := lt_asymm hsm
  have hnge : ¬ st.attempts ≥ 3 := by omega
  refine ⟨?_, ?_, ?_, ?_⟩
  · simp [attemptReconnection, hnge, hsm]
  · simp [attemptReconnection, hnge, hba]
  · intro st2 h2
    simp [attemptReconnection, h2]
  · intro n
    exact ⟨rfl, rfl, rfl⟩

/-- Witness for C9: with two attempts recorded, the smaller-id side a1
re-offers to b2 and the counter reaches 3; a state already at 3 is left
untouched. -/
theorem C9_reconnection_attempt_cap_witness :
    attemptReconnection "a1" "b2" ⟨none, none, 2⟩
        = (⟨some (initiatedConn "a1"), none, 3⟩, [Signal.offer (offerSdp "a1")])
    ∧ attemptReconnection "a1" "b2" ⟨none, none, 3⟩ = (⟨none, none, 3⟩, [])
    ∧ iceStateChangeAttempts 2 .connected = 0 := by
  have h := C9_reconnection_attempt_cap "a1" "b2" ⟨none, none, 2⟩ (by decide)
    (by rw [String.lt_iff_toList_lt]; decide)
  exact ⟨h.1, h.2.2.1 ⟨none, none, 3⟩ (by decide), (h.2.2.2 2).1⟩

/-- A user row with admitted status, for the C8 witness. -/
def admittedUser (id : String) : User :=
  ⟨id, id, none, some ParticipantStatus.admitted, some "participant"⟩

/-- Five admitted participants: the room is at MAX_PARTICIPANTS. -/
def fiveAdmitted : List User :=
  [admittedUser "u1", admittedUser "u2", admittedUser "u3",
   admittedUser "u4", admittedUser "u5"]

/-- C8: with five participants admitted, an approval click issues no status
update (the participant stays pending), while a deny click issues the
denied update regardless of the cap. -/
theorem C8_admission_cap (participants : List User)
    (hfull : admittedParticipantCount participants = MAX_PARTICIPANTS) :
    handleAdmission true (admittedParticipantCount participants) = none
    ∧ applyStatusUpdate
        (handleAdmission true (admittedParticipantCount participants))
        ParticipantStatus.pending = ParticipantStatus.pending
    ∧ (∀ n, handleAdmission false n = some ParticipantStatus.denied) := by
  have h1 : handleAdmission true (admittedParticipantCount participants) = none := by
    simp [handleAdmission, isRoomFull, hfull]
  refine ⟨h1, ?_, fun n => by simp [handleAdmission]⟩
  rw [h1]
  rfl

/-- Witness for C8 on the concrete room with five admitted users. -/
theorem C8_admission_cap_witness :
    handleAdmission true (admittedParticipantCount fiveAdmitted) = none
    ∧ applyStatusUpdate
        (handleAdmission true (admittedParticipantCount fiveAdmitted))
        ParticipantStatus.pending = ParticipantStatus.pending :=
  ⟨(C8_admission_cap fiveAdmitted (by decide)).1,
   (C8_admission_cap fiveAdmitted (by decide)).2.1⟩

end Meet4
